import Mathlib

/-!
Verification development for a WebSocket signaling relay with per-pair chat
history (server side) and the WebRTC client negotiation helpers (client side).
The definitions below are a shallow embedding of the message handler of the
server and of the client ICE/disconnect handlers.  JS Maps are modelled as
association lists, live WebSocket connections as a list of `Conn` records, and
the effect of processing one inbound frame as a pure function returning the new
server state together with the list of (recipient, message) sends performed.
A send that raises is modelled by the `sendFails` flag of a connection: in
loops with a per-recipient try/catch the failure is swallowed, elsewhere the
raised error aborts the rest of the handler (it is caught only by the outer
try/catch of the message handler), exactly as in the JS source.
-/

namespace P2P

/-- Chat message record as built by the chat-message case of the server. -/
structure ChatMsg where
  fromIP : String
  targetIP : String
  text : String
  timestamp : Nat
deriving DecidableEq

/-- Registration record stored in the clients Map: `{id, localIP, ready}`.
The localIP is stored exactly as received, hence possibly absent. -/
structure ClientInfo where
  id : String
  localIP : Option String
  ready : Bool
deriving DecidableEq

/-- One live WebSocket connection (an element of wss.clients).  `cid` models
object identity, `isOpen` models `readyState === WebSocket.OPEN`, and
`sendFails` models whether `client.send` raises a transport error. -/
structure Conn where
  cid : Nat
  isOpen : Bool
  sendFails : Bool
deriving DecidableEq

/-- JS `Map.get`: first (and in a real Map, only) binding of the key. -/
def getAssoc {α β : Type} [DecidableEq α] : List (α × β) → α → Option β
  | [], _ => none
  | (k, v) :: rest, a => if a = k then some v else getAssoc rest a

/-- JS `Map.set`: overwrite the binding of the key, or add it. -/
def setAssoc {α β : Type} [DecidableEq α] : List (α × β) → α → β → List (α × β)
  | [], a, b => [(a, b)]
  | (k, v) :: rest, a, b => if a = k then (a, b) :: rest else (k, v) :: setAssoc rest a b

/-- JS `Map.delete`: remove the binding of the key. -/
def removeAssoc {α β : Type} [DecidableEq α] : List (α × β) → α → List (α × β)
  | [], _ => []
  | (k, v) :: rest, a => if a = k then rest else (k, v) :: removeAssoc rest a

/-- The JS `<` operator on two strings: lexicographic comparison of the
character sequences. -/
def jsCharsLt : List Char → List Char → Bool
  | [], [] => false
  | [], _ :: _ => true
  | _ :: _, [] => false
  | a :: as, b :: bs =>
    if a.toNat < b.toNat then true
    else if b.toNat < a.toNat then false
    else jsCharsLt as bs

/-- The JS `<` operator applied to strings. -/
def jsStrLt (a b : String) : Bool := jsCharsLt a.toList b.toList

/-- Embedding of `getPairKey(ipA, ipB)`: null when either address is falsy
(the empty string), else the two addresses joined in lexicographic order. -/
def getPairKey (ipA ipB : String) : Option String :=
  if ipA = "" ∨ ipB = "" then none
  else if jsStrLt ipA ipB then some (ipA ++ "|" ++ ipB)
  else some (ipB ++ "|" ++ ipA)

/-- Embedding of the `while (list.length > 100) list.shift()` loop. -/
def trimFront (l : List ChatMsg) : List ChatMsg :=
  if _h : 100 < l.length then trimFront l.tail else l
termination_by l.length
decreasing_by
  simp only [List.length_tail]
  omega

/-- Embedding of `appendChatHistory(fromIP, toIP, message)`. -/
def appendChatHistory (fromIP toIP : String) (message : ChatMsg)
    (hist : List (String × List ChatMsg)) : List (String × List ChatMsg) :=
  match getPairKey fromIP toIP with
  | none => hist
  | some key => setAssoc hist key (trimFront (((getAssoc hist key).getD []) ++ [message]))

/-- Embedding of `clients.get(ws)?.localIP || 'unknown'`. -/
def ipOrUnknown : Option ClientInfo → String
  | none => "unknown"
  | some c =>
    match c.localIP with
    | none => "unknown"
    | some s => if s = "" then "unknown" else s

/-- Embedding of `data.id || Date.now().toString()`. -/
def idOr (i : Option String) (now : Nat) : String :=
  match i with
  | none => toString now
  | some s => if s = "" then toString now else s

/-- Embedding of `timestamp || Date.now()` (0 is falsy in JS). -/
def tsOr (t : Option Nat) (now : Nat) : Nat :=
  match t with
  | none => now
  | some n => if n = 0 then now else n

/-- The JS whitespace class used by `String.prototype.trim`. -/
def isJsSpace (c : Char) : Bool :=
  c = ' ' || c = Char.ofNat 9 || c = Char.ofNat 10 || c = Char.ofNat 11 ||
  c = Char.ofNat 12 || c = Char.ofNat 13 ||
  c = Char.ofNat 0xa0 || c = Char.ofNat 0x1680 ||
  (0x2000 ≤ c.toNat && c.toNat ≤ 0x200a) ||
  c = Char.ofNat 0x2028 || c = Char.ofNat 0x2029 || c = Char.ofNat 0x202f ||
  c = Char.ofNat 0x205f || c = Char.ofNat 0x3000 || c = Char.ofNat 0xfeff

/-- Embedding of the test `text.trim() === ''`: every character is whitespace. -/
def trimIsEmpty (s : String) : Bool := s.toList.all isJsSpace

/-- Discriminant of an inbound envelope: `data.type`. -/
inductive MsgType where
  | register
  | offer
  | answer
  | iceCandidate
  | chatMessage
  | requestChatHistory
  | disconnect
  | other
deriving DecidableEq

/-- The `text` field of an envelope: absent, present but not a string
(`typeof text !== 'string'`), or an actual string. -/
inductive TextField where
  | absent
  | nonString
  | str (s : String)
deriving DecidableEq

/-- A parsed inbound envelope.  `payload` stands for the remaining fields
(offer/answer SDP, candidate, ...) carried verbatim by the spread `{...data}`. -/
structure Envelope where
  type : MsgType
  id : Option String
  localIP : Option String
  targetIP : Option String
  text : TextField
  timestamp : Option Nat
  peerIP : Option String
  payload : String
deriving DecidableEq

/-- An outbound message written to some connection by the handler. -/
inductive OutMsg where
  | registered (serverIP : String)
  | signal (e : Envelope) (fromIP : String)
  | chat (m : ChatMsg)
  | chatDelivery (toIP : String) (delivered : Bool) (timestamp : Nat)
  | chatHistoryMsg (peerIP : String) (messages : List ChatMsg)
  | peerDisconnected
  | broadcastMsg (e : Envelope)
deriving DecidableEq

/-- Whole server state: the wss.clients set (in iteration order), the clients
registration Map and the chatHistory Map. -/
structure ServerState where
  conns : List Conn
  registry : List (Nat × ClientInfo)
  chatHistory : List (String × List ChatMsg)
deriving DecidableEq

/-- The matching condition of the offer/answer/ice-candidate forwarding loop:
`clientInfo && clientInfo.localIP === data.targetIP && client !== ws`. -/
def matchesTarget (reg : List (Nat × ClientInfo)) (t : String) (senderCid : Nat)
    (c : Conn) : Bool :=
  match getAssoc reg c.cid with
  | some info => info.localIP == some t && c.cid != senderCid
  | none => false

/-- The matching condition of the chat delivery loop:
`info && info.localIP === targetIP && client.readyState === WebSocket.OPEN`. -/
def matchesChat (reg : List (Nat × ClientInfo)) (t : String) (c : Conn) : Bool :=
  match getAssoc reg c.cid with
  | some info => info.localIP == some t && c.isOpen
  | none => false

/-- Whether `ws.send` on the handling connection itself raises. -/
def connSendFails (conns : List Conn) (cid : Nat) : Bool :=
  match conns.find? (fun c => c.cid == cid) with
  | some c => c.sendFails
  | none => false

/-- The forwarding loop of the offer/answer/ice-candidate case.  There is no
try/catch around `client.send` here, so a raised send failure escapes the
forEach: the second component records that an error was raised (it is then
caught by the outer handler), and no further recipient is visited. -/
def forwardSignal (reg : List (Nat × ClientInfo)) (senderCid : Nat) (t : String)
    (msg : OutMsg) : List Conn → List (Nat × OutMsg) × Bool
  | [] => ([], false)
  | c :: rest =>
    if matchesTarget reg t senderCid c then
      if c.sendFails then ([], true)
      else
        let r := forwardSignal reg senderCid t msg rest
        ((c.cid, msg) :: r.1, r.2)
    else forwardSignal reg senderCid t msg rest

/-- The chat delivery loop.  `client.send` is wrapped in a per-recipient
try/catch, so a failing recipient is skipped and the loop continues; the
second component is the `delivered` flag (set only on a successful send). -/
def deliverChat (reg : List (Nat × ClientInfo)) (t : String) (m : ChatMsg) :
    List Conn → List (Nat × OutMsg) × Bool
  | [] => ([], false)
  | c :: rest =>
    let r := deliverChat reg t m rest
    if matchesChat reg t c then
      if c.sendFails then r else ((c.cid, OutMsg.chat m) :: r.1, true)
    else r

/-- The `broadcast(data, excludeClient)` helper: send to every other open
connection; `client.send` is unguarded, so a raised failure aborts the loop. -/
def broadcastTo (excludeCid : Nat) (msg : OutMsg) : List Conn → List (Nat × OutMsg)
  | [] => []
  | c :: rest =>
    if c.cid != excludeCid && c.isOpen then
      if c.sendFails then []
      else (c.cid, msg) :: broadcastTo excludeCid msg rest
    else broadcastTo excludeCid msg rest

/-- The switch over `data.type` in the message handler of the server.
`cid` is the handling connection, `now` models `Date.now()` and `serverIP`
the result of `getLocalIP()`.  The result is the new server state together
with the ordered list of (recipient cid, message) sends performed. -/
def handleEnvelope (serverIP : String) (now : Nat) (s : ServerState) (cid : Nat)
    (e : Envelope) : ServerState × List (Nat × OutMsg) :=
  match e.type with
  | MsgType.register =>
    let info : ClientInfo := ⟨idOr e.id now, e.localIP, false⟩
    let s2 := { s with registry := setAssoc s.registry cid info }
    if connSendFails s.conns cid then (s2, [])
    else (s2, [(cid, OutMsg.registered serverIP)])
  | MsgType.offer | MsgType.answer | MsgType.iceCandidate =>
    match e.targetIP with
    | some t =>
      if t = "" then (s, [])
      else
        let fromIP := ipOrUnknown (getAssoc s.registry cid)
        (s, (forwardSignal s.registry cid t (OutMsg.signal e fromIP) s.conns).1)
    | none => (s, [])
  | MsgType.chatMessage =>
    let senderIP := ipOrUnknown (getAssoc s.registry cid)
    match e.targetIP, e.text with
    | some t, TextField.str txt =>
      if t = "" ∨ trimIsEmpty txt then (s, [])
      else
        let m : ChatMsg := ⟨senderIP, t, txt, tsOr e.timestamp now⟩
        let s2 := { s with chatHistory := appendChatHistory senderIP t m s.chatHistory }
        let dl := deliverChat s.registry t m s.conns
        let ack : List (Nat × OutMsg) :=
          if connSendFails s.conns cid then []
          else [(cid, OutMsg.chatDelivery t dl.2 (tsOr e.timestamp now))]
        (s2, dl.1 ++ ack)
    | _, _ => (s, [])
  | MsgType.requestChatHistory =>
    match e.peerIP with
    | some p =>
      if p = "" then (s, [])
      else
        let requesterIP := ipOrUnknown (getAssoc s.registry cid)
        let hist := ((getPairKey requesterIP p).bind
          (fun k => getAssoc s.chatHistory k)).getD []
        if connSendFails s.conns cid then (s, [])
        else (s, [(cid, OutMsg.chatHistoryMsg p hist)])
    | none => (s, [])
  | MsgType.disconnect =>
    ({ s with registry := removeAssoc s.registry cid },
     broadcastTo cid OutMsg.peerDisconnected s.conns)
  | MsgType.other =>
    (s, broadcastTo cid (OutMsg.broadcastMsg e) s.conns)

/-! Client side: the pieces of the VideoCall component that the claims are
about.  React refs and state setters are flattened into one record; the
ICE-candidate handlers and `disconnect` become pure state transformers that
additionally return the envelopes they write to the signaling socket. -/

/-- An ICE candidate produced by the peer connection. -/
structure Candidate where
  cdata : String
deriving DecidableEq

/-- The signaling WebSocket held in wsRef. -/
structure WsConn where
  isOpen : Bool
deriving DecidableEq

/-- The RTCPeerConnection held in peerConnectionRef. -/
structure PeerConn where
  pcid : Nat
deriving DecidableEq

/-- A media track of the local stream; `stopped` is set by `track.stop()`. -/
structure MediaTrack where
  kind : String
  stopped : Bool
deriving DecidableEq

/-- The local MediaStream held in localStreamRef. -/
structure MediaStream where
  tracks : List MediaTrack
deriving DecidableEq

/-- An envelope the client writes to the signaling socket. -/
inductive ClientOut where
  | iceCandidate (cand : Candidate) (targetIP : String)
deriving DecidableEq

/-- The state of the VideoCall component (refs and React state flattened).
`localVideo`/`remoteVideo` are the srcObject sinks of the two video elements. -/
structure ClientState where
  localIP : String
  serverIP : String
  peerIP : String
  isConnected : Bool
  isConnecting : Bool
  connectionStatus : String
  errorMsg : String
  localVideoStarted : Bool
  localVideo : Option MediaStream
  remoteVideo : Option MediaStream
  peerConnection : Option PeerConn
  ws : Option WsConn
  localStream : Option MediaStream
deriving DecidableEq

/-- The test `wsRef.current && wsRef.current.readyState === WebSocket.OPEN`. -/
def wsIsOpen (st : ClientState) : Bool :=
  match st.ws with
  | some w => w.isOpen
  | none => false

/-- The `pc.onicecandidate` handler installed by initializePeerConnection:
transmit the candidate to `peerIP` only when the candidate exists, the
signaling socket is open and `peerIP` is truthy; otherwise do nothing at all
(the candidate is not recorded anywhere). -/
def onIceCandidate (st : ClientState) (eventCandidate : Option Candidate) :
    ClientState × List ClientOut :=
  match eventCandidate with
  | some cand =>
    if wsIsOpen st && st.peerIP != "" then
      (st, [ClientOut.iceCandidate cand st.peerIP])
    else (st, [])
  | none => (st, [])

/-- The overriding `pc.onicecandidate` handler installed at the end of
handleOffer: the target is the captured `data.fromIP` and only the open
socket is checked. -/
def onIceCandidateAnswerer (fromIP : String) (st : ClientState)
    (eventCandidate : Option Candidate) : ClientState × List ClientOut :=
  match eventCandidate with
  | some cand =>
    if wsIsOpen st then (st, [ClientOut.iceCandidate cand fromIP])
    else (st, [])
  | none => (st, [])

/-- Embedding of the `disconnect` function of the client: close and drop the
peer connection and the socket, clear the remote sink and the call state, and
leave the local stream, the local sink and the started flag untouched. -/
def disconnect (st : ClientState) : ClientState :=
  { st with
    peerConnection := none
    ws := none
    remoteVideo := none
    isConnected := false
    isConnecting := false
    connectionStatus := "disconnected"
    peerIP := ""
    errorMsg := "" }

/-- Embedding of `stopLocalVideo` (for contrast with `disconnect`): stop all
tracks, drop the stream and the local sink, clear the started flag. -/
def stopLocalVideo (st : ClientState) : ClientState :=
  { st with
    localStream := none
    localVideo := none
    localVideoStarted := false }

/-- An inbound frame: either unparseable JSON or a parsed envelope. -/
inductive Frame where
  | malformed
  | parsed (e : Envelope)
deriving DecidableEq

/-- The whole message handler with its surrounding try/catch: an unparseable
frame is caught and dropped with no effect. -/
def handleFrame (serverIP : String) (now : Nat) (s : ServerState) (cid : Nat) :
    Frame → ServerState × List (Nat × OutMsg)
  | Frame.malformed => (s, [])
  | Frame.parsed e => handleEnvelope serverIP now s cid e

/-! Concrete fixtures used by the witness theorems. -/

def exMsg0 : ChatMsg := ⟨"10.0.0.2", "10.0.0.3", "x", 1⟩

def exMsg1 : ChatMsg := ⟨"10.0.0.2", "10.0.0.3", "hello", 2⟩

def exConns : List Conn := [⟨0, true, false⟩, ⟨1, true, false⟩, ⟨2, true, false⟩]

def exRegistry : List (Nat × ClientInfo) :=
  [(0, ⟨"a", some "10.0.0.2", false⟩), (1, ⟨"b", some "10.0.0.3", false⟩),
   (2, ⟨"c", some "10.0.0.4", false⟩)]

def exState : ServerState := ⟨exConns, exRegistry, []⟩

def exHist1 : List (String × List ChatMsg) := [("10.0.0.2|10.0.0.3", [exMsg0])]

def exState4 : ServerState := ⟨exConns, exRegistry, exHist1⟩

def exHist100 : List (String × List ChatMsg) :=
  [("10.0.0.2|10.0.0.3", List.replicate 100 exMsg0)]

def exOffer : Envelope :=
  ⟨MsgType.offer, none, none, some "10.0.0.3", TextField.absent, none, none, "sdp"⟩

def exChat : Envelope :=
  ⟨MsgType.chatMessage, none, none, some "10.0.0.3", TextField.str "hi", some 5, none, ""⟩

def exChatBad : Envelope :=
  ⟨MsgType.chatMessage, none, none, some "10.0.0.3", TextField.str "   ", some 5, none, ""⟩

def exHistReq (p : String) : Envelope :=
  ⟨MsgType.requestChatHistory, none, none, none, TextField.absent, none, some p, ""⟩

/-- Fixture for the send-failure scenario: connection 1 and connection 2 are
both registered under the target address, and the send to connection 1
raises. -/
def exConnsFail : List Conn := [⟨0, true, false⟩, ⟨1, true, true⟩, ⟨2, true, false⟩]

def exRegistryFail : List (Nat × ClientInfo) :=
  [(0, ⟨"a", some "10.0.0.2", false⟩), (1, ⟨"b", some "10.0.0.3", false⟩),
   (2, ⟨"c", some "10.0.0.3", false⟩)]

def exStateFail : ServerState := ⟨exConnsFail, exRegistryFail, []⟩

def exCand : Candidate := ⟨"candidate:0 1 UDP 2122252543 10.0.0.2 49203 typ host"⟩

def exClient : ClientState :=
  ⟨"10.0.0.2", "srv", "10.0.0.3", true, false, "connected", "", true,
   some ⟨[⟨"video", false⟩, ⟨"audio", false⟩]⟩, none, some ⟨7⟩, some ⟨true⟩,
   some ⟨[⟨"video", false⟩, ⟨"audio", false⟩]⟩⟩

def exClientNoPeer : ClientState := { exClient with peerIP := "" }

/-! Helper lemmas about the association-list operations. -/

theorem getAssoc_setAssoc_self {α β : Type} [DecidableEq α]
    (l : List (α × β)) (k : α) (v : β) :
    getAssoc (setAssoc l k v) k = some v := by
  induction l with
  | nil => simp [setAssoc, getAssoc]
  | cons p rest ih =>
    obtain ⟨k1, v1⟩ := p
    by_cases h : k = k1
    · subst h; simp [setAssoc, getAssoc]
    · simp [setAssoc, getAssoc, h, ih]

theorem mem_setAssoc {α β : Type} [DecidableEq α]
    (l : List (α × β)) (k : α) (v : β) (p : α × β)
    (hp : p ∈ setAssoc l k v) : p = (k, v) ∨ p ∈ l := by
  induction l with
  | nil => simpa [setAssoc] using hp
  | cons q rest ih =>
    obtain ⟨k1, v1⟩ := q
    by_cases h : k = k1
    · subst h
      simp [setAssoc] at hp
      rcases hp with h1 | h1
      · left; simp [h1]
      · right; simp [h1]
    · simp [setAssoc, h] at hp
      rcases hp with h1 | h1
      · right; simp [h1]
      · rcases ih h1 with h2 | h2
        · left; exact h2
        · right; simp [h2]

/-! Helper lemmas about the history trimming loop. -/

theorem trimFront_eq_of_le (l : List ChatMsg) (h : l.length ≤ 100) :
    trimFront l = l := by
  rw [trimFront, dif_neg]
  omega

theorem trimFront_length_le (l : List ChatMsg) : (trimFront l).length ≤ 100 := by
  induction l using trimFront.induct with
  | case1 l h ih => rw [trimFront, dif_pos h]; exact ih
  | case2 l h => rw [trimFront, dif_neg h]; omega

theorem trimFront_append_cap (l : List ChatMsg) (m : ChatMsg)
    (h : l.length = 100) : trimFront (l ++ [m]) = l.tail ++ [m] := by
  have h1 : 100 < (l ++ [m]).length := by simp [h]
  rw [trimFront, dif_pos h1]
  cases l with
  | nil => simp at h
  | cons a as =>
    have h2 : as.length = 99 := by
      simp only [List.length_cons] at h
      omega
    simp only [List.cons_append, List.tail_cons]
    apply trimFront_eq_of_le
    simp [h2]

/-! Helper lemmas about the delivery loops. -/

theorem forwardSignal_of_noFails (reg : List (Nat × ClientInfo)) (sc : Nat)
    (t : String) (msg : OutMsg) (conns : List Conn)
    (hnf : ∀ c ∈ conns, c.sendFails = false) :
    forwardSignal reg sc t msg conns =
      ((conns.filter (matchesTarget reg t sc)).map (fun c => (c.cid, msg)), false) := by
  induction conns with
  | nil => simp [forwardSignal]
  | cons c rest ih =>
    have hc : c.sendFails = false := hnf c (by simp)
    have hrest : ∀ x ∈ rest, x.sendFails = false := fun x hx => hnf x (by simp [hx])
    by_cases hm : matchesTarget reg t sc c
    · simp [forwardSignal, hm, hc, ih hrest, List.filter_cons]
    · simp [forwardSignal, hm, ih hrest, List.filter_cons]

theorem forwardSignal_fst_takeWhile (reg : List (Nat × ClientInfo)) (sc : Nat)
    (t : String) (msg : OutMsg) (conns : List Conn) :
    (forwardSignal reg sc t msg conns).1 =
      ((conns.takeWhile (fun c => !(matchesTarget reg t sc c && c.sendFails))).filter
          (matchesTarget reg t sc)).map (fun c => (c.cid, msg)) := by
  induction conns with
  | nil => simp [forwardSignal]
  | cons c rest ih =>
    by_cases hm : matchesTarget reg t sc c
    · by_cases hf : c.sendFails
      · simp [forwardSignal, hm, hf, List.takeWhile_cons]
      · simp [forwardSignal, hm, hf, List.takeWhile_cons, List.filter_cons, ih]
    · simp [forwardSignal, hm, List.takeWhile_cons, List.filter_cons, ih]

theorem deliverChat_eq (reg : List (Nat × ClientInfo)) (t : String) (m : ChatMsg)
    (conns : List Conn) :
    deliverChat reg t m conns =
      ((conns.filter (fun c => matchesChat reg t c && !c.sendFails)).map
          (fun c => (c.cid, OutMsg.chat m)),
       conns.any (fun c => matchesChat reg t c && !c.sendFails)) := by
  induction conns with
  | nil => simp [deliverChat]
  | cons c rest ih =>
    by_cases hm : matchesChat reg t c
    · by_cases hf : c.sendFails
      · simp [deliverChat, hm, hf, List.filter_cons, ih]
      · simp [deliverChat, hm, hf, List.filter_cons, ih]
    · simp [deliverChat, hm, List.filter_cons, ih]

theorem filter_and_not_fails (conns : List Conn) (p : Conn → Bool)
    (hnf : ∀ c ∈ conns, c.sendFails = false) :
    conns.filter (fun c => p c && !c.sendFails) = conns.filter p := by
  induction conns with
  | nil => rfl
  | cons c rest ih =>
    have hc : c.sendFails = false := hnf c (by simp)
    have hrest : ∀ x ∈ rest, x.sendFails = false := fun x hx => hnf x (by simp [hx])
    simp [List.filter_cons, hc, ih hrest]

theorem any_and_not_fails (conns : List Conn) (p : Conn → Bool)
    (hnf : ∀ c ∈ conns, c.sendFails = false) :
    conns.any (fun c => p c && !c.sendFails) = conns.any p := by
  induction conns with
  | nil => rfl
  | cons c rest ih =>
    have hc : c.sendFails = false := hnf c (by simp)
    have hrest : ∀ x ∈ rest, x.sendFails = false := fun x hx => hnf x (by simp [hx])
    simp [hc, ih hrest]

theorem connSendFails_of_noFails (conns : List Conn) (cid : Nat)
    (hnf : ∀ c ∈ conns, c.sendFails = false) : connSendFails conns cid = false := by
  unfold connSendFails
  cases hfind : conns.find? (fun c => c.cid == cid) with
  | none => rfl
  | some c => exact hnf c (List.mem_of_find?_eq_some hfind)

/-! Helper lemmas about address resolution. -/

theorem ipOrUnknown_ne_empty (ci : Option ClientInfo) : ipOrUnknown ci ≠ "" := by
  match ci with
  | none => simp [ipOrUnknown]
  | some c =>
    match h : c.localIP with
    | none => simp [ipOrUnknown, h]
    | some s =>
      by_cases hs : s = ""
      · simp [ipOrUnknown, h, hs]
      · simp [ipOrUnknown, h, hs]

theorem ipOrUnknown_of_some {ci : ClientInfo} {a : String}
    (h : ci.localIP = some a) (ha : a ≠ "") : ipOrUnknown (some ci) = a := by
  simp [ipOrUnknown, h, ha]

theorem ipOrUnknown_of_missing {ci : Option ClientInfo}
    (h : ci = none ∨ ∃ c, ci = some c ∧ c.localIP = none) :
    ipOrUnknown ci = "unknown" := by
  rcases h with h | ⟨c, hc, hl⟩
  · simp [h, ipOrUnknown]
  · simp [hc, ipOrUnknown, hl]

theorem jsCharsLt_asymm : ∀ as bs : List Char,
    jsCharsLt as bs = true → jsCharsLt bs as = false
  | [], [] => by simp [jsCharsLt]
  | [], _ :: _ => by simp [jsCharsLt]
  | _ :: _, [] => by simp [jsCharsLt]
  | a :: as, b :: bs => by
    simp only [jsCharsLt]
    intro h
    by_cases h1 : a.toNat < b.toNat
    · have h2 : ¬ b.toNat < a.toNat := by omega
      simp [h1, h2]
    · by_cases h2 : b.toNat < a.toNat
      · simp [h1, h2] at h
      · simp [h1, h2] at h ⊢
        exact jsCharsLt_asymm as bs h

theorem jsCharsLt_eq_of_not : ∀ as bs : List Char,
    jsCharsLt as bs = false → jsCharsLt bs as = false → as = bs
  | [], [] => by simp
  | [], _ :: _ => by simp [jsCharsLt]
  | _ :: _, [] => by simp [jsCharsLt]
  | a :: as, b :: bs => by
    simp only [jsCharsLt]
    intro h1 h2
    by_cases ha : a.toNat < b.toNat
    · simp [ha] at h1
    · by_cases hb : b.toNat < a.toNat
      · simp [hb] at h2
      · have hn : a.toNat = b.toNat := by omega
        have hab : a = b := by
          calc a = Char.ofNat a.toNat := (Char.ofNat_toNat a).symm
            _ = Char.ofNat b.toNat := by rw [hn]
            _ = b := Char.ofNat_toNat b
        subst hab
        simp [ha] at h1 h2
        simp [jsCharsLt_eq_of_not as bs h1 h2]

theorem getPairKey_comm (a b : String) : getPairKey a b = getPairKey b a := by
  unfold getPairKey
  by_cases ha : a = "" <;> by_cases hb : b = "" <;> simp [ha, hb]
  by_cases h1 : jsStrLt a b
  · have h2 : jsStrLt b a = false := jsCharsLt_asymm _ _ h1
    simp [h1, h2]
  · by_cases h2 : jsStrLt b a
    · simp [h1, h2]
    · have hl : a.toList = b.toList :=
        jsCharsLt_eq_of_not _ _ (by simpa [jsStrLt] using h1) (by simpa [jsStrLt] using h2)
      have hab : a = b := by
        cases a; cases b
        exact congrArg String.mk (by simpa [String.toList] using hl)
      subst hab
      simp

/-! Unfolding equations for the individual cases of the handler. -/

theorem handleEnvelope_signal_eq (srv : String) (now : Nat) (s : ServerState)
    (cid : Nat) (e : Envelope) (t : String)
    (hty : e.type = MsgType.offer ∨ e.type = MsgType.answer ∨
      e.type = MsgType.iceCandidate)
    (ht : e.targetIP = some t) (htne : t ≠ "") :
    handleEnvelope srv now s cid e =
      (s, (forwardSignal s.registry cid t
        (OutMsg.signal e (ipOrUnknown (getAssoc s.registry cid))) s.conns).1) := by
  obtain ⟨ty, eid, lip, tgt, txt, ets, pip, pl⟩ := e
  dsimp only at hty ht
  subst ht
  rcases hty with h | h | h <;> subst h <;> simp [handleEnvelope, htne]

theorem handleEnvelope_chat_eq (srv : String) (now : Nat) (s : ServerState)
    (cid : Nat) (e : Envelope) (t txt : String)
    (hty : e.type = MsgType.chatMessage) (ht : e.targetIP = some t)
    (htne : t ≠ "") (htxt : e.text = TextField.str txt)
    (hws : trimIsEmpty txt = false) :
    handleEnvelope srv now s cid e =
      ({ s with
          chatHistory := appendChatHistory (ipOrUnknown (getAssoc s.registry cid)) t
            ⟨ipOrUnknown (getAssoc s.registry cid), t, txt, tsOr e.timestamp now⟩
            s.chatHistory },
       (deliverChat s.registry t
          ⟨ipOrUnknown (getAssoc s.registry cid), t, txt, tsOr e.timestamp now⟩
          s.conns).1 ++
        (if connSendFails s.conns cid then []
         else [(cid, OutMsg.chatDelivery t
            (deliverChat s.registry t
              ⟨ipOrUnknown (getAssoc s.registry cid), t, txt, tsOr e.timestamp now⟩
              s.conns).2
            (tsOr e.timestamp now))])) := by
  obtain ⟨ty, eid, lip, tgt, etxt, ets, pip, pl⟩ := e
  dsimp only at hty ht htxt
  subst hty
  subst ht
  subst htxt
  simp [handleEnvelope, htne, hws]

theorem handleEnvelope_hist_eq (srv : String) (now : Nat) (s : ServerState)
    (cid : Nat) (e : Envelope) (p : String)
    (hty : e.type = MsgType.requestChatHistory) (hp : e.peerIP = some p)
    (hpne : p ≠ "") (hcf : connSendFails s.conns cid = false) :
    handleEnvelope srv now s cid e =
      (s, [(cid, OutMsg.chatHistoryMsg p
        (((getPairKey (ipOrUnknown (getAssoc s.registry cid)) p).bind
          (fun k => getAssoc s.chatHistory k)).getD []))]) := by
  obtain ⟨ty, eid, lip, tgt, etxt, ets, pip, pl⟩ := e
  dsimp only at hty hp
  subst hty
  subst hp
  simp [handleEnvelope, hpne, hcf]

/-! The claim theorems. -/

/-- C1: an inbound offer, answer or ice-candidate envelope with a non-empty
targetIP leaves the state unchanged and is forwarded, with the sender
registered address stamped in as fromIP, to exactly those registered
connections whose declared address equals targetIP, the sending connection
excluded; in particular, when no connection matches, the send list is empty,
so nothing is delivered and no error envelope goes back to the sender. -/
theorem C1_signal_routing (srv : String) (now : Nat) (s : ServerState)
    (cid : Nat) (e : Envelope) (t : String)
    (hty : e.type = MsgType.offer ∨ e.type = MsgType.answer ∨
      e.type = MsgType.iceCandidate)
    (ht : e.targetIP = some t) (htne : t ≠ "")
    (hnf : ∀ c ∈ s.conns, c.sendFails = false) :
    handleEnvelope srv now s cid e =
      (s, (s.conns.filter (matchesTarget s.registry t cid)).map
        (fun c => (c.cid, OutMsg.signal e (ipOrUnknown (getAssoc s.registry cid))))) := by
  rw [handleEnvelope_signal_eq srv now s cid e t hty ht htne,
    forwardSignal_of_noFails s.registry cid t _ s.conns hnf]

/-- C1 witness: concrete two-peer scenario, the offer reaches exactly the
connection registered under the target address. -/
theorem C1_signal_routing_w :
    handleEnvelope "srv" 0 exState 0 exOffer =
      (exState, (exState.conns.filter (matchesTarget exState.registry "10.0.0.3" 0)).map
        (fun c => (c.cid, OutMsg.signal exOffer (ipOrUnknown (getAssoc exState.registry 0)))))
    ∧ (exState.conns.filter (matchesTarget exState.registry "10.0.0.3" 0)).map
        (fun c => (c.cid, OutMsg.signal exOffer (ipOrUnknown (getAssoc exState.registry 0)))) =
      [(1, OutMsg.signal exOffer "10.0.0.2")] :=
  ⟨C1_signal_routing "srv" 0 exState 0 exOffer "10.0.0.3" (Or.inl rfl) rfl
    (by decide) (by decide), by decide⟩

/-- C2: the per-pair history lists never exceed 100 entries after an append
(given they did not before), and appending to a list that already holds 100
messages drops exactly the stored head while the rest keep their relative
order, the new message arriving at the back. -/
theorem C2_history_cap (f t : String) (m : ChatMsg)
    (hist : List (String × List ChatMsg))
    (hbound : ∀ p ∈ hist, (Prod.snd p).length ≤ 100) :
    (∀ p ∈ appendChatHistory f t m hist, (Prod.snd p).length ≤ 100)
    ∧ (∀ k l, getPairKey f t = some k → getAssoc hist k = some l →
        l.length = 100 →
        getAssoc (appendChatHistory f t m hist) k = some (l.tail ++ [m])) := by
  constructor
  · intro p hp
    unfold appendChatHistory at hp
    cases hkey : getPairKey f t with
    | none => rw [hkey] at hp; exact hbound p hp
    | some key =>
      rw [hkey] at hp
      rcases mem_setAssoc _ _ _ _ hp with h | h
      · rw [h]
        exact trimFront_length_le _
      · exact hbound p h
  · intro k l hkey hl hlen
    unfold appendChatHistory
    rw [hkey]
    rw [getAssoc_setAssoc_self]
    rw [hl]
    rw [Option.getD_some]
    rw [trimFront_append_cap l m hlen]

/-- C2 witness: a pair whose history holds exactly 100 messages; the append
keeps the bound and the result is the old tail plus the new message. -/
theorem C2_history_cap_w :
    (∀ p ∈ appendChatHistory "10.0.0.2" "10.0.0.3" exMsg1 exHist100,
      (Prod.snd p).length ≤ 100)
    ∧ getAssoc (appendChatHistory "10.0.0.2" "10.0.0.3" exMsg1 exHist100)
        "10.0.0.2|10.0.0.3" = some ((List.replicate 100 exMsg0).tail ++ [exMsg1]) := by
  have h := C2_history_cap "10.0.0.2" "10.0.0.3" exMsg1 exHist100 (by decide)
  exact ⟨h.1, h.2 "10.0.0.2|10.0.0.3" (List.replicate 100 exMsg0)
    (by decide) (by decide) (by decide)⟩

/-- C5: a chat-message whose targetIP is missing or empty, or whose text is
missing, not a string, or whitespace-only, is dropped silently: the state is
unchanged and nothing at all is sent, neither forwarded message nor error nor
acknowledgement. -/
theorem C5_invalid_chat_silent_drop (srv : String) (now : Nat)
    (s : ServerState) (cid : Nat) (e : Envelope)
    (hty : e.type = MsgType.chatMessage)
    (hbad : e.targetIP = none ∨ e.targetIP = some "" ∨
      e.text = TextField.absent ∨ e.text = TextField.nonString ∨
      ∃ txt, e.text = TextField.str txt ∧ trimIsEmpty txt = true) :
    handleEnvelope srv now s cid e = (s, []) := by
  obtain ⟨ty, eid, lip, tgt, etxt, ets, pip, pl⟩ := e
  dsimp only at hty hbad
  subst hty
  rcases hbad with h | h | h | h | ⟨x, hx, hw⟩
  · subst h; cases etxt <;> simp [handleEnvelope]
  · subst h; cases etxt <;> simp [handleEnvelope]
  · subst h; cases tgt <;> simp [handleEnvelope]
  · subst h; cases tgt <;> simp [handleEnvelope]
  · subst hx
    cases tgt with
    | none => simp [handleEnvelope]
    | some t => by_cases ht : t = "" <;> simp [handleEnvelope, ht, hw]

/-- C5 witness: a whitespace-only chat text is dropped with no effect. -/
theorem C5_invalid_chat_silent_drop_w :
    handleEnvelope "srv" 0 exState 0 exChatBad = (exState, []) :=
  C5_invalid_chat_silent_drop "srv" 0 exState 0 exChatBad rfl
    (Or.inr (Or.inr (Or.inr (Or.inr ⟨"   ", rfl, by decide⟩))))

/-- C6 counterexample: connection 2 is open, healthy and registered under the
target address of the offer, yet it receives nothing, because the raised send
failure at connection 1 aborts the forwarding loop (there is no per-recipient
try/catch in the offer/answer/ice-candidate case). -/
theorem C6_per_recipient_cx :
    matchesTarget exStateFail.registry "10.0.0.3" 0 ⟨2, true, false⟩ = true
    ∧ Conn.mk 2 true false ∈ exStateFail.conns
    ∧ (handleEnvelope "srv" 0 exStateFail 0 exOffer).2 = [] :=
  ⟨by decide, by decide, by decide⟩

/-- C6 amended: per-recipient containment of send failures holds for
chat-message delivery (every healthy matching open connection is served no
matter which other recipients fail), but not for offer/answer/ice-candidate
forwarding, where the envelope reaches exactly the matching recipients that
precede the first matching recipient whose send raises; the raised error is
then contained by the outer handler. -/
theorem C6_send_failure_isolation :
    (∀ (reg : List (Nat × ClientInfo)) (t : String) (m : ChatMsg)
      (conns : List Conn),
      (deliverChat reg t m conns).1 =
        (conns.filter (fun c => matchesChat reg t c && !c.sendFails)).map
          (fun c => (c.cid, OutMsg.chat m)))
    ∧ (∀ (reg : List (Nat × ClientInfo)) (sc : Nat) (t : String) (msg : OutMsg)
      (conns : List Conn),
      (forwardSignal reg sc t msg conns).1 =
        ((conns.takeWhile (fun c => !(matchesTarget reg t sc c && c.sendFails))).filter
          (matchesTarget reg t sc)).map (fun c => (c.cid, msg))) :=
  ⟨fun reg t m conns => by rw [deliverChat_eq], forwardSignal_fst_takeWhile⟩

/-- C9: the client disconnect closes and drops the peer connection and the
signaling socket and clears the remote sink, while the local stream, the
local sink and the local-video flag are left untouched. -/
theorem C9_disconnect_local_preserved (st : ClientState) :
    (disconnect st).localStream = st.localStream
    ∧ (disconnect st).localVideo = st.localVideo
    ∧ (disconnect st).localVideoStarted = st.localVideoStarted
    ∧ (disconnect st).peerConnection = none
    ∧ (disconnect st).ws = none
    ∧ (disconnect st).remoteVideo = none
    ∧ (disconnect st).connectionStatus = "disconnected" :=
  ⟨rfl, rfl, rfl, rfl, rfl, rfl, rfl⟩

/-- C3: a valid chat-message (non-empty target, non-whitespace string text),
in the absence of transport send failures, appends exactly the one new
message at the back of the history list of the canonical pair, and the sends
are the deliveries to every open connection registered under the target
followed by a chat-delivery acknowledgement to the sender whose delivered
flag is set exactly when at least one open connection matched the target. -/
theorem C3_chat_history_and_ack (srv : String) (now : Nat) (s : ServerState)
    (cid : Nat) (e : Envelope) (t txt k : String)
    (hty : e.type = MsgType.chatMessage) (ht : e.targetIP = some t)
    (htne : t ≠ "") (htxt : e.text = TextField.str txt)
    (hws : trimIsEmpty txt = false)
    (hnf : ∀ c ∈ s.conns, c.sendFails = false)
    (hk : getPairKey (ipOrUnknown (getAssoc s.registry cid)) t = some k)
    (hlen : ((getAssoc s.chatHistory k).getD []).length < 100) :
    getAssoc (handleEnvelope srv now s cid e).1.chatHistory k =
      some (((getAssoc s.chatHistory k).getD []) ++
        [⟨ipOrUnknown (getAssoc s.registry cid), t, txt, tsOr e.timestamp now⟩])
    ∧ (handleEnvelope srv now s cid e).2 =
        (s.conns.filter (matchesChat s.registry t)).map
          (fun c => (c.cid, OutMsg.chat
            ⟨ipOrUnknown (getAssoc s.registry cid), t, txt, tsOr e.timestamp now⟩))
        ++ [(cid, OutMsg.chatDelivery t (s.conns.any (matchesChat s.registry t))
            (tsOr e.timestamp now))] := by
  rw [handleEnvelope_chat_eq srv now s cid e t txt hty ht htne htxt hws]
  constructor
  · unfold appendChatHistory
    rw [hk]
    rw [getAssoc_setAssoc_self]
    rw [trimFront_eq_of_le]
    simp
    omega
  · rw [deliverChat_eq, connSendFails_of_noFails s.conns cid hnf]
    rw [filter_and_not_fails s.conns _ hnf, any_and_not_fails s.conns _ hnf]
    simp

/-- C3 witness: peer at 10.0.0.2 sends "hi" to 10.0.0.3 over healthy
connections; exactly one history entry appears under the canonical pair key
and the acknowledgement reports a successful delivery. -/
theorem C3_chat_history_and_ack_w :
    getAssoc (handleEnvelope "srv" 0 exState 0 exChat).1.chatHistory
        "10.0.0.2|10.0.0.3" =
      some (((getAssoc exState.chatHistory "10.0.0.2|10.0.0.3").getD []) ++
        [⟨ipOrUnknown (getAssoc exState.registry 0), "10.0.0.3", "hi",
          tsOr exChat.timestamp 0⟩])
    ∧ (handleEnvelope "srv" 0 exState 0 exChat).2 =
        (exState.conns.filter (matchesChat exState.registry "10.0.0.3")).map
          (fun c => (c.cid, OutMsg.chat
            ⟨ipOrUnknown (getAssoc exState.registry 0), "10.0.0.3", "hi",
              tsOr exChat.timestamp 0⟩))
        ++ [(0, OutMsg.chatDelivery "10.0.0.3"
            (exState.conns.any (matchesChat exState.registry "10.0.0.3"))
            (tsOr exChat.timestamp 0))] :=
  C3_chat_history_and_ack "srv" 0 exState 0 exChat "10.0.0.3" "hi"
    "10.0.0.2|10.0.0.3" rfl rfl (by decide) rfl (by decide) (by decide)
    (by decide) (by decide)

/-- C4: the pair key is symmetric in its two addresses, and consequently a
history request issued by either member of a registered pair is answered
with the same stored message sequence. -/
theorem C4_pairkey_symm :
    (∀ a b : String, getPairKey a b = getPairKey b a)
    ∧ (∀ (srv : String) (now : Nat) (s : ServerState) (a b : Nat)
      (ia ib : ClientInfo) (A B : String) (eA eB : Envelope),
      getAssoc s.registry a = some ia → ia.localIP = some A → A ≠ "" →
      getAssoc s.registry b = some ib → ib.localIP = some B → B ≠ "" →
      connSendFails s.conns a = false → connSendFails s.conns b = false →
      eA.type = MsgType.requestChatHistory → eA.peerIP = some B →
      eB.type = MsgType.requestChatHistory → eB.peerIP = some A →
      ∃ msgs, handleEnvelope srv now s a eA =
          (s, [(a, OutMsg.chatHistoryMsg B msgs)])
        ∧ handleEnvelope srv now s b eB =
          (s, [(b, OutMsg.chatHistoryMsg A msgs)])) := by
  refine ⟨getPairKey_comm, ?_⟩
  intro srv now s a b ia ib A B eA eB hga hla hA hgb hlb hB hca hcb htyA hpA htyB hpB
  refine ⟨((getPairKey A B).bind (fun k => getAssoc s.chatHistory k)).getD [],
    ?_, ?_⟩
  · rw [handleEnvelope_hist_eq srv now s a eA B htyA hpA hB hca]
    rw [hga, ipOrUnknown_of_some hla hA]
  · rw [handleEnvelope_hist_eq srv now s b eB A htyB hpB hA hcb]
    rw [hgb, ipOrUnknown_of_some hlb hB]
    rw [getPairKey_comm B A]

/-- C4 witness: the two members of a pair with one stored message each ask
for the history and receive the same sequence. -/
theorem C4_pairkey_symm_w :
    ∃ msgs, handleEnvelope "srv" 0 exState4 0 (exHistReq "10.0.0.3") =
        (exState4, [(0, OutMsg.chatHistoryMsg "10.0.0.3" msgs)])
      ∧ handleEnvelope "srv" 0 exState4 1 (exHistReq "10.0.0.2") =
        (exState4, [(1, OutMsg.chatHistoryMsg "10.0.0.2" msgs)]) :=
  C4_pairkey_symm.2 "srv" 0 exState4 0 1 ⟨"a", some "10.0.0.2", false⟩
    ⟨"b", some "10.0.0.3", false⟩ "10.0.0.2" "10.0.0.3"
    (exHistReq "10.0.0.3") (exHistReq "10.0.0.2")
    (by decide) rfl (by decide) (by decide) rfl (by decide)
    (by decide) (by decide) rfl rfl rfl rfl

/-- The handler never touches the set of live connections, whatever the
envelope: no branch closes or removes a socket. -/
theorem handleEnvelope_conns (srv : String) (now : Nat) (s : ServerState)
    (cid : Nat) (e : Envelope) :
    (handleEnvelope srv now s cid e).1.conns = s.conns := by
  obtain ⟨ty, eid, lip, tgt, etxt, ets, pip, pl⟩ := e
  cases ty
  case register =>
    dsimp only [handleEnvelope]
    split <;> rfl
  case offer =>
    cases tgt with
    | none => rfl
    | some t =>
      dsimp only [handleEnvelope]
      split <;> rfl
  case answer =>
    cases tgt with
    | none => rfl
    | some t =>
      dsimp only [handleEnvelope]
      split <;> rfl
  case iceCandidate =>
    cases tgt with
    | none => rfl
    | some t =>
      dsimp only [handleEnvelope]
      split <;> rfl
  case chatMessage =>
    cases tgt with
    | none => cases etxt <;> rfl
    | some t =>
      cases etxt with
      | absent => rfl
      | nonString => rfl
      | str x =>
        dsimp only [handleEnvelope]
        split <;> rfl
  case requestChatHistory =>
    cases pip with
    | none => rfl
    | some p =>
      dsimp only [handleEnvelope]
      split
      · rfl
      · split <;> rfl
  case disconnect => rfl
  case other => rfl

/-- C7: an unparseable frame is caught, dropped and has no effect at all, and
no frame whatsoever (parseable or not) touches the set of live connections:
the handler always returns normally with the sending connection still open
and no effect escaping to the connection list. -/
theorem C7_errors_contained (srv : String) (now : Nat) (s : ServerState)
    (cid : Nat) :
    handleFrame srv now s cid Frame.malformed = (s, [])
    ∧ ∀ f, (handleFrame srv now s cid f).1.conns = s.conns := by
  refine ⟨rfl, ?_⟩
  intro f
  cases f with
  | malformed => rfl
  | parsed e => exact handleEnvelope_conns srv now s cid e

/-- C8: a generated ICE candidate is transmitted at once to the current peer
address when one is known and the socket is open; with no known peer address
it is dropped on the spot, the state is never changed (so nothing is queued
for a later send); the overriding answerer-side handler sends to the captured
offer sender address whenever the socket is open. -/
theorem C8_ice_candidate_policy (st : ClientState) (cand : Candidate) :
    (wsIsOpen st = true → st.peerIP ≠ "" →
      onIceCandidate st (some cand) = (st, [ClientOut.iceCandidate cand st.peerIP]))
    ∧ (st.peerIP = "" → onIceCandidate st (some cand) = (st, []))
    ∧ (∀ oc, (onIceCandidate st oc).1 = st)
    ∧ (∀ a, wsIsOpen st = true →
      onIceCandidateAnswerer a st (some cand) = (st, [ClientOut.iceCandidate cand a])) := by
  refine ⟨?_, ?_, ?_, ?_⟩
  · intro hw hp
    simp [onIceCandidate, hw, hp]
  · intro hp
    simp [onIceCandidate, hp]
  · intro oc
    cases oc with
    | none => rfl
    | some c =>
      dsimp only [onIceCandidate]
      split <;> rfl
  · intro a hw
    simp [onIceCandidateAnswerer, hw]

/-- C8 witness: with a known peer and an open socket the candidate goes out
to the peer; with the peer address cleared the same candidate is dropped and
the state is untouched. -/
theorem C8_ice_candidate_policy_w :
    onIceCandidate exClient (some exCand) =
      (exClient, [ClientOut.iceCandidate exCand exClient.peerIP])
    ∧ onIceCandidate exClientNoPeer (some exCand) = (exClientNoPeer, []) :=
  ⟨(C8_ice_candidate_policy exClient exCand).1 (by decide) (by decide),
   (C8_ice_candidate_policy exClientNoPeer exCand).2.1 (by decide)⟩

/-- C10: an envelope from a connection that never registered (or registered
without a localIP) is not rejected: the sender address falls back to the
literal string unknown, signaling envelopes are forwarded with fromIP
unknown, chat messages are stored under the pair of unknown and the target,
and a history request reads the list of the pair of unknown and the peer. -/
theorem C10_unknown_sender (srv : String) (now : Nat) (s : ServerState)
    (cid : Nat)
    (hreg : getAssoc s.registry cid = none ∨
      ∃ ci, getAssoc s.registry cid = some ci ∧ ci.localIP = none) :
    ipOrUnknown (getAssoc s.registry cid) = "unknown"
    ∧ (∀ e t, (e.type = MsgType.offer ∨ e.type = MsgType.answer ∨
        e.type = MsgType.iceCandidate) →
      e.targetIP = some t → t ≠ "" → (∀ c ∈ s.conns, c.sendFails = false) →
      (handleEnvelope srv now s cid e).2 =
        (s.conns.filter (matchesTarget s.registry t cid)).map
          (fun c => (c.cid, OutMsg.signal e "unknown")))
    ∧ (∀ e t txt, e.type = MsgType.chatMessage → e.targetIP = some t →
      t ≠ "" → e.text = TextField.str txt → trimIsEmpty txt = false →
      (handleEnvelope srv now s cid e).1.chatHistory =
        appendChatHistory "unknown" t ⟨"unknown", t, txt, tsOr e.timestamp now⟩
          s.chatHistory)
    ∧ (∀ e p, e.type = MsgType.requestChatHistory → e.peerIP = some p →
      p ≠ "" → connSendFails s.conns cid = false →
      (handleEnvelope srv now s cid e).2 =
        [(cid, OutMsg.chatHistoryMsg p
          (((getPairKey "unknown" p).bind
            (fun k => getAssoc s.chatHistory k)).getD []))]) := by
  have hu := ipOrUnknown_of_missing hreg
  refine ⟨hu, ?_, ?_, ?_⟩
  · intro e t hty ht htne hnf
    rw [handleEnvelope_signal_eq srv now s cid e t hty ht htne, hu,
      forwardSignal_of_noFails s.registry cid t _ s.conns hnf]
  · intro e t txt hty ht htne htxt hws
    rw [handleEnvelope_chat_eq srv now s cid e t txt hty ht htne htxt hws, hu]
  · intro e p hty hp hpne hcf
    rw [handleEnvelope_hist_eq srv now s cid e p hty hp hpne hcf, hu]

/-- C10 witness: connection 9 never registered; its history request is still
answered, read from the pair of unknown and the peer. -/
theorem C10_unknown_sender_w :
    ipOrUnknown (getAssoc exState.registry 9) = "unknown"
    ∧ (handleEnvelope "srv" 0 exState 9 (exHistReq "10.0.0.3")).2 =
        [(9, OutMsg.chatHistoryMsg "10.0.0.3"
          (((getPairKey "unknown" "10.0.0.3").bind
            (fun k => getAssoc exState.chatHistory k)).getD []))] := by
  have h := C10_unknown_sender "srv" 0 exState 9 (Or.inl (by decide))
  exact ⟨h.1, h.2.2.2 (exHistReq "10.0.0.3") "10.0.0.3" rfl rfl
    (by decide) (by decide)⟩

end P2P
